import Mathlib

/-!
Verification of the harla_zk protocol layer (`src/zk.rs` and the `api`
data model) against its design specification.

The external proving engine (ZoKrates circuit interpreter, Groth16
prover/verifier) and the MiMC7 keyed hash are out of scope per the spec
(§1) and are taken as parameters of the embedded orchestrators.
-/

namespace Harla

/-- The modulus of the BN128 (alt_bn128) scalar field used by both the
ZoKrates `Bn128Field` and the `mimc_rs` field type. -/
def bn128Modulus : ℕ :=
  21888242871839275222246405745257275088548364400416034343698204186575808495617

/-- Field elements of the proving system (`Bn128Field` / `mimc_rs::Fr`). -/
abbrev F : Type := ZMod bn128Modulus

instance : Fact (1 < bn128Modulus) := ⟨by norm_num [bn128Modulus]⟩

/-- `Bn128Field::from` on a signed machine integer (day numbers and the
relation flag): the integer reduced into the field. -/
def intToF (z : ℤ) : F := (z : F)

/-- `Bn128Field::from_byte_vector`: interprets a byte sequence as a
little-endian integer and reduces it into the field. -/
def from_byte_vector (bs : List ℕ) : F := ((Nat.ofDigits 256 bs : ℕ) : F)

/-- `Bn128Field::into_byte_vector` / `PrimeFieldRepr::write_le`: a field
element rendered as 32 little-endian bytes. -/
def into_byte_vector (x : F) : List ℕ :=
  (List.range 32).map (fun i => x.val / 256 ^ i % 256)

/-- Modelled from the spec: the `Relation` enumeration of `api.rs`
(not under `src/`), §3: "enumeration \x7bOlder, Younger\x7d". -/
inductive Relation : Type where
  | Older : Relation
  | Younger : Relation
deriving DecidableEq

/-- Modelled from the spec: the `Private` record of `api.rs` (not under
`src/`), §3: birthday day-number plus a secret nonce (field element
carried as bytes, as `zk.rs` consumes it via `from_byte_vector`). -/
structure Private where
  birthday : ℤ
  nonce : List ℕ
deriving DecidableEq

/-- Modelled from the spec: the `PublicQr` record of `api.rs` (not under
`src/`), §3: the public claim embedded verbatim in the proof artifact. -/
structure PublicQr where
  today : ℤ
  contract : List ℕ
  delta : ℤ
  relation : Relation
deriving DecidableEq

/-- Modelled from the spec: the `PublicChain` record of `api.rs` (not
under `src/`), §3: chain data the verifier obtains independently. -/
structure PublicChain where
  photo_hash : List ℕ
  prover_key : List ℕ
deriving DecidableEq

/-- Modelled from the spec: the `QrRequest` record of `api.rs` (not under
`src/`), §3: one proof-generation request. -/
structure QrRequest where
  qr : PublicQr
  chain : PublicChain
  «private» : Private
deriving DecidableEq

/-- Modelled from the spec: the `ProofQrCode` record of `api.rs` (not
under `src/`), §3: the transportable proof artifact. -/
structure ProofQrCode where
  public : PublicQr
  proof : List ℕ
deriving DecidableEq

/-- Modelled from the spec: `QrRequest::is_relation_valid` of `api.rs`
(not under `src/`), §4.3: `Older` is valid iff `today - birthday > delta`
(strict), `Younger` iff `today - birthday < delta` (strict). -/
def QrRequest.is_relation_valid (rq : QrRequest) : Bool :=
  match rq.qr.relation with
  | Relation.Older => rq.qr.today - rq.«private».birthday > rq.qr.delta
  | Relation.Younger => rq.qr.today - rq.«private».birthday < rq.qr.delta

/-- Outcome of a fallible Rust function: `Ok`, `Err`, or a panic (an
`unwrap` of an error value, or a failed `assert`). -/
inductive RunResult (α : Type) : Type where
  | ok (value : α) : RunResult α
  | err (message : String) : RunResult α
  | panicked : RunResult α
deriving DecidableEq

/-- `zk.rs` `zok2mimc`: converts a `Bn128Field` value to `mimc_rs::Fr`
through its decimal string; lossless, so the identity on the abstract
field. -/
def zok2mimc (value : F) : F := value

/-- `zk.rs` `mimc2zok`: converts a `mimc_rs::Fr` value to `Bn128Field`
through its little-endian representation bytes; lossless, so the
identity on the abstract field. -/
def mimc2zok (value : F) : F := value

/-- `zk.rs` `compute_mimc7r10_hash`. The external `mimc_rs` MiMC7 keyed
hash family is a parameter `mimc`, indexed by the round count passed to
`Mimc7::new`; the source constructs `Mimc7::new(10)` and hashes once. -/
def compute_mimc7r10_hash (mimc : ℕ → F → F → F) (x k : F) : F :=
  mimc2zok (mimc 10 (zok2mimc x) (zok2mimc k))

/-- `zk.rs` `generate_prover_key`, parameterised by the external MiMC7
hash family. -/
def generate_prover_key (mimc : ℕ → F → F → F) (pv : Private)
    (contract : List ℕ) (photo_hash : List ℕ) : List ℕ :=
  let nonce := from_byte_vector pv.nonce
  let birthday := intToF pv.birthday
  let photo_hash := from_byte_vector photo_hash
  let contract := from_byte_vector contract
  let card_key := compute_mimc7r10_hash mimc (birthday + nonce) (photo_hash * contract)
  into_byte_vector card_key

/-- `zk.rs` `generate_proof`, lines 71-103: the circuit-argument vector,
built in push order, after the relation-validity branch (`delta` and
`is_younger` start as `rq.qr.delta` and `0` and are conditionally
reassigned exactly as in the source). -/
def circuitArguments (rq : QrRequest) : List F :=
  let birthday := rq.«private».birthday
  let delta := rq.qr.delta
  let today := rq.qr.today
  let is_younger : ℤ := 0
  let state :=
    if rq.is_relation_valid then
      (delta, if rq.qr.relation = Relation.Younger then (1 : ℤ) else is_younger)
    else
      (0, is_younger)
  ([] : List F)
    ++ [intToF birthday]
    ++ [intToF state.1]
    ++ [intToF today]
    ++ [intToF state.2]
    ++ [from_byte_vector rq.chain.photo_hash]
    ++ [from_byte_vector rq.qr.contract]
    ++ [from_byte_vector rq.«private».nonce]

/-- `zk.rs` `generate_proof`. The external engine appears as parameters:
`execute` is the circuit interpreter with the embedded program already
applied (the program/ABI constants are build artifacts assumed
well-formed, spec §5/§9), `return_values` reads a witness's outputs, and
`g16_prove` is the Groth16 prover with the embedded proving key,
producing the raw proof bytes. The `assert_eq!(1, outs.len())` of the
source is a panic when it fails. -/
def generate_proof {W : Type} (execute : List F → Except String W)
    (return_values : W → List F) (g16_prove : W → List ℕ)
    (rq : QrRequest) : RunResult ProofQrCode :=
  match execute (circuitArguments rq) with
  | Except.error e => RunResult.err ("Execution failed: " ++ e)
  | Except.ok witness =>
      if (return_values witness).length = 1 then
        RunResult.ok { public := rq.qr, proof := g16_prove witness }
      else
        RunResult.panicked

/-- `zk.rs` `verify_proof`, lines 129-142: the public-input vector, built
in push order from the artifact's embedded `PublicQr` and the
caller-supplied `PublicChain`. -/
def verifyInputs (qr : ProofQrCode) (chain : PublicChain) : List F :=
  let delta := qr.public.delta
  let today := qr.public.today
  let is_younger : Bool := qr.public.relation = Relation.Younger
  ([] : List F)
    ++ [intToF delta]
    ++ [intToF today]
    ++ [intToF (if is_younger then 1 else 0)]
    ++ [from_byte_vector chain.photo_hash]
    ++ [from_byte_vector qr.public.contract]
    ++ [from_byte_vector chain.prover_key]

/-- `zk.rs` `verify_proof`. External parameters: `parse_vk` is the serde
deserialization of the embedded verification-key constant, `read_proof`
is `BellmanProof::read` on the raw proof bytes (`none` on malformed
bytes), and `g16_verify` is the Groth16 pairing check on the
verification key, public inputs and decoded proof (the source's
re-serialisation of the decoded proof into the `Proof` record is a
lossless representation change absorbed into `g16_verify`). The source
calls `.map_err(|_| QrError {}).unwrap()` on the decode result, so a
decode failure is a panic. -/
def verify_proof {VK BProof : Type} (parse_vk : Except String VK)
    (read_proof : List ℕ → Option BProof)
    (g16_verify : VK → List F → BProof → Bool)
    (qr : ProofQrCode) (chain : PublicChain) : RunResult Unit :=
  match parse_vk with
  | Except.error why => RunResult.err ("Could not deserialize verification key: " ++ why)
  | Except.ok vk =>
      let inputs := verifyInputs qr chain
      match read_proof qr.proof with
      | none => RunResult.panicked
      | some proof =>
          let ans := g16_verify vk inputs proof
          if ans then RunResult.ok () else RunResult.err "no"

/-- Decimal rendering of a natural number as digit characters, least
significant digit first; used by the transport codec below. -/
def natToChars (n : ℕ) : List Char :=
  (Nat.digits 10 n).map (fun d => Char.ofNat (48 + d))

/-- Inverse of `natToChars`: reads digit characters back into a natural
number. -/
def charsToNat (cs : List Char) : ℕ :=
  Nat.ofDigits 10 (cs.map (fun c => c.toNat - 48))

/-- `Relation` as a bit for the transport codec. -/
def relToBool : Relation → Bool
  | Relation.Older => false
  | Relation.Younger => true

/-- Inverse of `relToBool`. -/
def relOfBool : Bool → Relation
  | false => Relation.Older
  | true => Relation.Younger

/-- The payload of the transport codec: every field of a `ProofQrCode`
(public claim fields and raw proof bytes), as a tuple of encodable
components. -/
def ProofQrCode.toTuple (p : ProofQrCode) : ℤ × List ℕ × ℤ × Bool × List ℕ :=
  (p.public.today, p.public.contract, p.public.delta, relToBool p.public.relation, p.proof)

/-- Inverse of `ProofQrCode.toTuple`: rebuilds the artifact from the
decoded tuple. -/
def ProofQrCode.ofTuple : ℤ × List ℕ × ℤ × Bool × List ℕ → ProofQrCode
  | (t, c, d, r, pf) =>
    { public := { today := t, contract := c, delta := d, relation := relOfBool r },
      proof := pf }

/-- Modelled from the spec: `ProofQrCode::to_string` of `api.rs` (not
under `src/`), §4.6: a deterministic textual encoding carrying the
public claim fields and the raw proof bytes. The exact grammar is an
implementation choice per the spec; here the tuple of fields is packed
into one natural number and rendered in decimal. -/
def ProofQrCode.to_string (p : ProofQrCode) : String :=
  ⟨natToChars (Encodable.encode p.toTuple)⟩

/-- Modelled from the spec: `ProofQrCode::from_str` of `api.rs` (not
under `src/`), §4.6: decodes the transport string, rejecting
structurally invalid input with a parse error. -/
def ProofQrCode.from_string (s : String) : Except String ProofQrCode :=
  match Encodable.decode (α := ℤ × List ℕ × ℤ × Bool × List ℕ) (charsToNat s.data) with
  | none => Except.error "ParseError"
  | some t => Except.ok (ProofQrCode.ofTuple t)

/-- Sample chain data for concrete witnesses (mirrors the values of the
`test_verification` test in `zk.rs`). -/
def chainSample : PublicChain := { photo_hash := [3], prover_key := [9] }

/-- A request whose relation claim holds (Older: 2020 - 2001 = 19 > 18),
mirroring the `verify_older` test. -/
def rqValid : QrRequest :=
  { qr := { today := 2020, contract := [4], delta := 18, relation := Relation.Older },
    chain := chainSample,
    «private» := { birthday := 2001, nonce := [7] } }

/-- A request whose relation claim fails (Older: 2020 - 2010 = 10, not
greater than 18), mirroring the `verify_invalid` test; triggers the
decoy branch. -/
def rqInvalid : QrRequest :=
  { qr := { today := 2020, contract := [4], delta := 18, relation := Relation.Older },
    chain := chainSample,
    «private» := { birthday := 2010, nonce := [7] } }

/-- A request asking for `Younger` that is not valid (2020 - 2000 = 20,
not less than 5): in the decoy branch the source leaves the
`is_younger` flag at `0` even though the relation is `Younger`. -/
def rqYoungerInvalid : QrRequest :=
  { qr := { today := 2020, contract := [4], delta := 5, relation := Relation.Younger },
    chain := chainSample,
    «private» := { birthday := 2000, nonce := [7] } }

/-- A request sitting exactly on the threshold (2020 - 2000 = 20 = delta),
mirroring the `verify_marginal_case_older` test. -/
def rqMarginal : QrRequest :=
  { qr := { today := 2020, contract := [4], delta := 20, relation := Relation.Older },
    chain := chainSample,
    «private» := { birthday := 2000, nonce := [7] } }

/-- A transport artifact whose proof bytes (empty) cannot decode to a
Groth16 curve-point triple. -/
def malformedQr : ProofQrCode :=
  { public := { today := 2020, contract := [4], delta := 18, relation := Relation.Older },
    proof := [] }

/-- A constant stand-in for the external circuit interpreter: always
succeeds. -/
def exC : List F → Except String Unit := fun _ => Except.ok ()

/-- A constant stand-in for reading a witness's return values: one
output, as the circuit produces. -/
def rvC : Unit → List F := fun _ => [intToF 0]

/-- A constant stand-in for the external Groth16 prover. -/
def prC : Unit → List ℕ := fun _ => []

theorem intToF_zero_ne_one : intToF 0 ≠ intToF 1 := by
  have h0 : intToF 0 = (0 : F) := by simp [intToF]
  have h1 : intToF 1 = (1 : F) := by simp [intToF]
  rw [h0, h1]
  exact zero_ne_one

theorem charsToNat_natToChars (n : ℕ) : charsToNat (natToChars n) = n := by
  unfold charsToNat natToChars
  rw [List.map_map]
  have hmap : (Nat.digits 10 n).map ((fun c => c.toNat - 48) ∘ fun d => Char.ofNat (48 + d))
      = (Nat.digits 10 n).map id := by
    apply List.map_congr_left
    intro d hd
    have hd10 : d < 10 := Nat.digits_lt_base (by norm_num) hd
    simp only [Function.comp_apply, id_eq]
    interval_cases d <;> rfl
  rw [hmap, List.map_id, Nat.ofDigits_digits]

theorem ofTuple_toTuple (p : ProofQrCode) : ProofQrCode.ofTuple p.toTuple = p := by
  rcases p with ⟨⟨t, c, d, rel⟩, pf⟩
  cases rel <;> rfl

/-- Claim C8: `is_relation_valid` is strict — `Older` is valid iff
`today - birthday > delta`, `Younger` iff `today - birthday < delta`,
and on the threshold day (`today - birthday = delta`) it is false for
both relations. -/
theorem is_relation_valid_strict (rq : QrRequest) :
    (rq.is_relation_valid = true ↔
      ((rq.qr.relation = Relation.Older ∧ rq.qr.delta < rq.qr.today - rq.«private».birthday)
        ∨ (rq.qr.relation = Relation.Younger
            ∧ rq.qr.today - rq.«private».birthday < rq.qr.delta)))
    ∧ (rq.qr.today - rq.«private».birthday = rq.qr.delta →
        rq.is_relation_valid = false) := by
  rcases rq with ⟨⟨t, c, d, rel⟩, ch, b, n⟩
  unfold QrRequest.is_relation_valid
  cases rel <;> constructor <;> simp <;> omega

/-- Witness for claim C8 at the marginal request of the
`verify_marginal_case_older` test: exactly on the threshold, the
relation is not valid. -/
theorem is_relation_valid_strict_witness :
    rqMarginal.qr.today - rqMarginal.«private».birthday = rqMarginal.qr.delta
    ∧ rqMarginal.is_relation_valid = false :=
  ⟨by decide, (is_relation_valid_strict rqMarginal).2 (by decide)⟩

/-- Claim C4: the circuit-argument vector has exactly seven elements, in
the order birthday, delta (0 in the decoy branch), today, the
is-younger flag, then the field elements photo hash, contract and
nonce. -/
theorem circuit_arguments_shape (rq : QrRequest) :
    circuitArguments rq =
      [intToF rq.«private».birthday,
       intToF (if rq.is_relation_valid then rq.qr.delta else 0),
       intToF rq.qr.today,
       intToF (if rq.is_relation_valid ∧ rq.qr.relation = Relation.Younger then 1 else 0),
       from_byte_vector rq.chain.photo_hash,
       from_byte_vector rq.qr.contract,
       from_byte_vector rq.«private».nonce]
    ∧ (circuitArguments rq).length = 7 := by
  have hmain : circuitArguments rq =
      [intToF rq.«private».birthday,
       intToF (if rq.is_relation_valid then rq.qr.delta else 0),
       intToF rq.qr.today,
       intToF (if rq.is_relation_valid ∧ rq.qr.relation = Relation.Younger then 1 else 0),
       from_byte_vector rq.chain.photo_hash,
       from_byte_vector rq.qr.contract,
       from_byte_vector rq.«private».nonce] := by
    unfold circuitArguments
    by_cases h : rq.is_relation_valid
      <;> by_cases h2 : rq.qr.relation = Relation.Younger
      <;> simp [h, h2]
  exact ⟨hmain, by rw [hmain]; rfl⟩

/-- Counterexample to claim C5: on a request asking `Younger` whose
relation is invalid (decoy branch), the flag handed to the circuit is
`0`, not the `1` the claim requires for every `Younger` request. -/
theorem is_younger_flag_counterexample :
    rqYoungerInvalid.qr.relation = Relation.Younger
    ∧ (circuitArguments rqYoungerInvalid).get? 3 = some (intToF 0)
    ∧ intToF 0 ≠ intToF 1 :=
  ⟨rfl, rfl, intToF_zero_ne_one⟩

/-- Claim C5 as amended: the is-younger flag handed to the circuit is
`1` exactly when the relation is `Younger` and the relation is valid;
it is `0` whenever the relation is `Older`, and also `0` in the decoy
branch (invalid relation), even for `Younger` requests. -/
theorem is_younger_flag_amended (rq : QrRequest) :
    (circuitArguments rq).get? 3
      = some (intToF (if rq.is_relation_valid ∧ rq.qr.relation = Relation.Younger
          then 1 else 0)) := by
  unfold circuitArguments
  by_cases h : rq.is_relation_valid
    <;> by_cases h2 : rq.qr.relation = Relation.Younger
    <;> simp [h, h2]

/-- Claim C3: the verification-side public-input vector is exactly
delta, today, the is-younger flag and contract from the artifact's
embedded `PublicQr`, with photo hash and prover key taken from the
caller-supplied `PublicChain`. -/
theorem verify_inputs_shape (qr : ProofQrCode) (chain : PublicChain) :
    verifyInputs qr chain =
      [intToF qr.public.delta,
       intToF qr.public.today,
       intToF (if qr.public.relation = Relation.Younger then 1 else 0),
       from_byte_vector chain.photo_hash,
       from_byte_vector qr.public.contract,
       from_byte_vector chain.prover_key]
    ∧ (verifyInputs qr chain).length = 6 := by
  have hmain : verifyInputs qr chain =
      [intToF qr.public.delta,
       intToF qr.public.today,
       intToF (if qr.public.relation = Relation.Younger then 1 else 0),
       from_byte_vector chain.photo_hash,
       from_byte_vector qr.public.contract,
       from_byte_vector chain.prover_key] := by
    unfold verifyInputs
    by_cases h : qr.public.relation = Relation.Younger <;> simp [h]
  exact ⟨hmain, by rw [hmain]; rfl⟩

/-- Claim C1: when the requested relation is invalid, the delta slot of
the circuit-argument vector carries `0` instead of the requested delta
(and the requested delta when valid); in both cases the full circuit
execution and proof construction run and `generate_proof` returns `Ok`
with a `ProofQrCode` built from the prover's output. -/
theorem generate_proof_decoy_policy {W : Type} (execute : List F → Except String W)
    (return_values : W → List F) (g16_prove : W → List ℕ)
    (rq : QrRequest) (w : W)
    (hexec : execute (circuitArguments rq) = Except.ok w)
    (houts : (return_values w).length = 1) :
    (circuitArguments rq).get? 1
      = some (intToF (if rq.is_relation_valid then rq.qr.delta else 0))
    ∧ generate_proof execute return_values g16_prove rq
      = RunResult.ok { public := rq.qr, proof := g16_prove w } := by
  constructor
  · unfold circuitArguments
    by_cases h : rq.is_relation_valid
      <;> by_cases h2 : rq.qr.relation = Relation.Younger
      <;> simp [h, h2]
  · unfold generate_proof
    rw [hexec]
    simp [houts]

/-- Witness for claim C1 at the decoy-branch request `rqInvalid` with
constant stand-ins for the external engine. -/
theorem generate_proof_decoy_policy_witness :
    exC (circuitArguments rqInvalid) = Except.ok ()
    ∧ (rvC ()).length = 1
    ∧ ((circuitArguments rqInvalid).get? 1
        = some (intToF (if rqInvalid.is_relation_valid then rqInvalid.qr.delta else 0))
      ∧ generate_proof exC rvC prC rqInvalid
        = RunResult.ok { public := rqInvalid.qr, proof := prC () }) :=
  ⟨rfl, rfl, generate_proof_decoy_policy exC rvC prC rqInvalid () rfl rfl⟩

/-- Claim C7: whenever `generate_proof` returns `Ok`, the `public` field
of the returned artifact is the request's `PublicQr` verbatim, decoy
branch included. -/
theorem generate_proof_preserves_public {W : Type} (execute : List F → Except String W)
    (return_values : W → List F) (g16_prove : W → List ℕ)
    (rq : QrRequest) (p : ProofQrCode)
    (h : generate_proof execute return_values g16_prove rq = RunResult.ok p) :
    p.public = rq.qr := by
  unfold generate_proof at h
  cases hex : execute (circuitArguments rq) with
  | error e => rw [hex] at h; simp at h
  | ok w =>
      rw [hex] at h
      by_cases hlen : (return_values w).length = 1
      · simp [hlen] at h
        rw [← h]
      · simp [hlen] at h

/-- Witness for claim C7 at the valid request `rqValid` with constant
stand-ins for the external engine. -/
theorem generate_proof_preserves_public_witness :
    generate_proof exC rvC prC rqValid
      = RunResult.ok { public := rqValid.qr, proof := prC () }
    ∧ ({ public := rqValid.qr, proof := prC () } : ProofQrCode).public = rqValid.qr :=
  ⟨rfl, generate_proof_preserves_public exC rvC prC rqValid
    { public := rqValid.qr, proof := prC () } rfl⟩

/-- Claim C2 fails on the code: on proof bytes the external decoder
rejects (here the empty byte sequence), `verify_proof` panics — the
source unwraps the `Err(QrError)` produced by `BellmanProof::read` —
instead of returning the reject outcome the spec requires. -/
theorem verify_proof_panics_on_malformed_proof :
    verify_proof (Except.ok ()) (fun _ => (none : Option Unit)) (fun _ _ _ => false)
      malformedQr chainSample = RunResult.panicked
    ∧ RunResult.panicked ≠ (RunResult.err "no" : RunResult Unit) :=
  ⟨rfl, by decide⟩

/-- Claim C6: the prover key is a single MiMC7 call with round count 10,
on `x = birthday + nonce` (field addition) keyed by
`k = photo_hash * contract` (field multiplication), rendered as
bytes. -/
theorem generate_prover_key_formula (mimc : ℕ → F → F → F) (pv : Private)
    (contract : List ℕ) (photo_hash : List ℕ) :
    generate_prover_key mimc pv contract photo_hash
      = into_byte_vector
          (mimc 10 (intToF pv.birthday + from_byte_vector pv.nonce)
            (from_byte_vector photo_hash * from_byte_vector contract)) := rfl

/-- Claim C10: swapping the `contract` and `photo_hash` arguments of
`generate_prover_key` leaves the key unchanged, because the compression
key is their commutative field product. -/
theorem generate_prover_key_comm (mimc : ℕ → F → F → F) (pv : Private)
    (a : List ℕ) (b : List ℕ) :
    generate_prover_key mimc pv a b = generate_prover_key mimc pv b a := by
  simp only [generate_prover_key, compute_mimc7r10_hash, zok2mimc, mimc2zok]
  rw [mul_comm (from_byte_vector b) (from_byte_vector a)]

/-- Claim C9: the transport codec round-trips — decoding the transport
string of any `ProofQrCode` reproduces the artifact exactly, public
claim fields and raw proof bytes included. -/
theorem from_string_to_string (p : ProofQrCode) :
    ProofQrCode.from_string p.to_string = Except.ok p := by
  unfold ProofQrCode.from_string ProofQrCode.to_string
  rw [show (String.mk (natToChars (Encodable.encode p.toTuple))).data
      = natToChars (Encodable.encode p.toTuple) from rfl]
  rw [charsToNat_natToChars, Encodable.encodek]
  simp [ofTuple_toTuple]

end Harla
